import Mathlib

/-!
Verification of the canal-simulation repository (`Mvr09/PracticaIA`).

The development shallowly embeds the Python sources:
* `src/Model/cargo.py`   — the `Cargo` descriptor,
* `src/Model/boat.py`    — the `Boat` aggregate with its capacity-checked loader,
* `src/Model/cargo_optimizer.py` — the fitness function and the evolutionary
  cargo selection (the external DEAP search loop is modelled from the spec as a
  list of evaluated candidates together with the hall-of-fame selection rule),
* `Controller/controller.py` — the discrete-event canal simulation (the external
  `simpy` scheduler and the Python `random` module are modelled from the spec:
  events carry `(time, priority, sequence)` keys and randomness is a
  deterministic stream indexed by a seed).

Python numbers (ints and floats) are embedded as rationals; the fallible parts
return `Except String`.
-/

/-- `Cargo` from `src/Model/cargo.py`: an immutable cargo descriptor. -/
structure Cargo where
  name : String
  value_per_unit : ℚ
  weight : ℚ
  space_required : ℚ
  category : String
deriving DecidableEq

/-- `Boat` from `src/Model/boat.py`.  The extra `cargo` field models the
attribute that `can_load` creates on its success path (`self.cargo =+ ...`);
it does not exist after `__init__`, hence the `Option`. -/
structure Boat where
  name : String
  max_weight : ℚ
  max_space : ℚ
  current_weight : ℚ
  current_space : ℚ
  total_value : ℚ
  cargo_list : List Cargo
  cargo : Option ℚ
deriving DecidableEq

/-- `Boat.__init__`: the `total_value` parameter of the Python constructor is
ignored (the body assigns the literal `0`), so it is omitted here. -/
def mkBoat (name : String) (max_weight max_space : ℚ) : Boat :=
  { name := name, max_weight := max_weight, max_space := max_space,
    current_weight := 0, current_space := 0, total_value := 0,
    cargo_list := [], cargo := none }

/-- `Boat.can_load`: returns the boolean answer together with the boat, since
the success path mutates the boat — `self.cargo =+ cargo.value_per_unit`
parses as an assignment of `+value_per_unit`, i.e. it overwrites `cargo`. -/
def Boat.can_load (b : Boat) (c : Cargo) : Bool × Boat :=
  if b.current_weight + c.weight > b.max_weight then (false, b)
  else if b.current_space + c.space_required > b.max_space then (false, b)
  else (true, { b with cargo := some c.value_per_unit })

/-- `Boat.load_cargo`: loads the item when `can_load` permits it, threading the
boat returned by the check. -/
def Boat.load_cargo (b : Boat) (c : Cargo) : Boat :=
  let r := b.can_load c
  if r.1 then
    { r.2 with
      cargo_list := r.2.cargo_list ++ [c],
      current_weight := r.2.current_weight + c.weight,
      current_space := r.2.current_space + c.space_required,
      total_value := r.2.total_value + c.value_per_unit }
  else r.2

/-- Total weight of a list of cargo items. -/
def totalWeight (l : List Cargo) : ℚ := (l.map (fun c => c.weight)).sum

/-- Total space requirement of a list of cargo items. -/
def totalSpace (l : List Cargo) : ℚ := (l.map (fun c => c.space_required)).sum

/-- Total value of a list of cargo items under the reporting convention of
`controller.py` line 89: `value_per_unit * weight` per item. -/
def totalValue (l : List Cargo) : ℚ := (l.map (fun c => c.value_per_unit * c.weight)).sum

/-- Sum of the bare `value_per_unit` figures, the convention of the
`total_value` accumulator in `Boat.load_cargo`. -/
def totalUnitValue (l : List Cargo) : ℚ := (l.map (fun c => c.value_per_unit)).sum

/-- `cargo_value` as computed at reporting time in
`CanalSimulation.process_ship_with_cargo` (controller.py line 89). -/
def cargoValue (b : Boat) : ℚ := totalValue b.cargo_list

-- Basic frame lemmas about the loader.

/-- The capacity invariant of claim C2. -/
def CapacityOK (b : Boat) : Prop :=
  b.current_weight ≤ b.max_weight ∧ b.current_space ≤ b.max_space

/-- One iteration of the accumulation loop in `evalCargo`: the three running
totals `(total_weight, total_space, total_value)` updated by one
`(gene, cargo)` pair. -/
def evalStep (acc : ℚ × ℚ × ℚ) (p : Bool × Cargo) : ℚ × ℚ × ℚ :=
  if p.1 then
    (acc.1 + p.2.weight, acc.2.1 + p.2.space_required,
     acc.2.2 + p.2.value_per_unit * p.2.weight)
  else acc

/-- `evalCargo` from `cargo_optimizer.py`: fitness of a binary individual for
a boat and a catalog.  The loop runs over `zip(individual, cargo_options)`
and the hard-penalty check compares the totals with the boat's limits. -/
def evalCargo (individual : List Bool) (boat : Boat) (cargo_options : List Cargo) : ℚ :=
  let t := (individual.zip cargo_options).foldl evalStep (0, 0, 0)
  if t.1 > boat.max_weight ∨ t.2.1 > boat.max_space then 0 else t.2.2

/-- The cargo items picked out of a zipped `(gene, cargo)` list. -/
def selOf (l : List (Bool × Cargo)) : List Cargo :=
  (l.filter (fun p => p.1)).map (fun p => p.2)

/-- The catalog items selected by a bit-vector (`zip` truncates to the
shorter list, exactly as Python's `zip` does). -/
def selectedCargo (individual : List Bool) (opts : List Cargo) : List Cargo :=
  selOf (individual.zip opts)

/-- The hall-of-fame fold: DEAP's `HallOfFame(1)` keeps the earliest
individual of maximal fitness (replacement only on a strict improvement). -/
def hofFold (f : List Bool → ℚ) (x : List Bool) (xs : List (List Bool)) : List Bool :=
  xs.foldl (fun b ind => if f b < f ind then ind else b) x

/-- Modelled from the spec (section 4.5): `optimize_cargo` runs DEAP's
`eaSimple` — an external library, its randomized population evolution is
summarized by the list `evaluated` of candidate bit-vectors it evaluates, in
hall-of-fame update order — and returns the hall-of-fame individual together
with its fitness recomputed by `evalCargo`.  The population is never empty in
the source (size 50), so the `[]` case is unreachable there. -/
def optimize_cargo (boat : Boat) (cargo_options : List Cargo)
    (evaluated : List (List Bool)) : List Bool × ℚ :=
  match evaluated with
  | [] => ([], 0)
  | x :: xs =>
    let best := hofFold (fun i => evalCargo i boat cargo_options) x xs
    (best, evalCargo best boat cargo_options)

/-- `load_optimal_cargo` from `cargo_optimizer.py`: loads every item whose
gene is set in the winning individual, through `Boat.load_cargo`, in catalog
order. -/
def load_optimal_cargo (boat : Boat) (cargo_options : List Cargo)
    (evaluated : List (List Bool)) : Boat :=
  ((optimize_cargo boat cargo_options evaluated).1.zip cargo_options).foldl
    (fun b p => if p.1 then b.load_cargo p.2 else b) boat

/-- The transit fee as computed in `CanalSimulation.process_ship_with_cargo`
(controller.py line 82): `base_fee / (1 + wait_time)`. -/
def fee (base_fee wait_time : ℚ) : ℚ := base_fee / (1 + wait_time)

/-- One row of `ship_logs` (the ShipRecord of the spec). -/
structure ShipRecord where
  ship : String
  arrival : ℚ
  entry : ℚ
  wait_time : ℚ
  service_time : ℚ
  exit_time : ℚ
  fee : ℚ
  cargo_value : ℚ
  cargo_weight : ℚ
  cargo_space : ℚ
  free_weight : ℚ
  free_space : ℚ
deriving DecidableEq

/-- One row of `cargo_logs` (the CargoRecord of the spec). -/
structure CargoRecord where
  ship : String
  cargo_name : String
  category : String
  weight : ℚ
  space : ℚ
  value : ℚ
deriving DecidableEq

/-- One row of `canal_logs` (the RunSummary of the spec). -/
structure CanalRecord where
  total_ships : ℕ
  average_wait_time : ℚ
  total_fees_collected : ℚ
  simulation_time : ℚ
deriving DecidableEq

/-- The mutable state of a `CanalSimulation` object: the constructor arguments
it stores, the lock occupancy of its `simpy.Resource` (`users` slots in use
plus the FIFO queue of pending requests with their arrival times), and its
logs and accumulators. -/
structure CanalSimState where
  num_locks : ℤ
  avg_service_time : ℚ
  base_fee : ℚ
  users : ℕ
  wait_queue : List (Boat × ℚ)
  ship_logs : List ShipRecord
  cargo_logs : List CargoRecord
  canal_logs : List CanalRecord
  total_fees_collected : ℚ
  ship_count : ℕ
  wait_times : List ℚ
deriving DecidableEq

/-- `CanalSimulation.__init__`: stores its arguments and initializes empty
logs.  It performs no validation of its own; the only constructor-time
rejection comes from `simpy.Resource` (outside this repository), which
raises `ValueError` for a non-positive capacity. -/
def mkCanalSimulation (num_locks : ℤ) (avg_service_time base_fee : ℚ) :
    Except String CanalSimState :=
  if num_locks ≤ 0 then .error "ValueError: capacity must be > 0"
  else .ok
    { num_locks := num_locks, avg_service_time := avg_service_time,
      base_fee := base_fee, users := 0, wait_queue := [],
      ship_logs := [], cargo_logs := [], canal_logs := [],
      total_fees_collected := 0, ship_count := 0, wait_times := [] }

/-- Modelled from the spec: the Python `random` module (outside this
repository) as a deterministic pseudo-random source — after seeding, draw
number `i` is a nonnegative rational fully determined by `(seed, i)`. -/
def randomStream (seed i : ℕ) : ℚ := (((31 * seed + 17 * i + 7) % 100 : ℕ) : ℚ)

/-- The global RNG state: the seed last passed to `random.seed` and the
number of draws made since. -/
structure RngState where
  seed : ℕ
  index : ℕ
deriving DecidableEq

/-- `random.seed(s)`. -/
def mkRng (seed : ℕ) : RngState := { seed := seed, index := 0 }

/-- One draw from the global RNG. -/
def RngState.draw (g : RngState) : ℚ × RngState :=
  (randomStream g.seed g.index, { g with index := g.index + 1 })

/-- Modelled from the spec: `random.expovariate(lambd)` (outside this
repository) maps one stream draw `u` to the variate `u / lambd`; Python
raises `ZeroDivisionError` when the rate is zero. -/
def expovariateM (lambd : ℚ) (g : RngState) : Except String (ℚ × RngState) :=
  if lambd = 0 then .error "ZeroDivisionError"
  else
    let p := g.draw
    .ok (p.1 / lambd, p.2)

/-- `random_boat` from controller.py: randomized capacities from exponential
draws with means 10000 and 500 (floored at 1000 and 100 by `max`, truncated
by `int`), and a random name suffix (`random.randint(1, 1000)` is modelled
from the spec as a deterministic function of one stream draw). -/
def random_boat (g : RngState) : Except String (Boat × RngState) :=
  match expovariateM (1 / 10000) g with
  | .error m => .error m
  | .ok (u1, g1) =>
    match expovariateM (1 / 500) g1 with
    | .error m => .error m
    | .ok (u2, g2) =>
      let p := g2.draw
      let n : ℤ := 1 + (⌊p.1⌋ % 1000)
      .ok (mkBoat ("Boat_" ++ toString n)
            ((max 1000 ⌊u1⌋ : ℤ) : ℚ) ((max 100 ⌊u2⌋ : ℤ) : ℚ), p.2)

/-- Modelled from the spec (section 4.5): the randomized candidate generation
of the DEAP search (outside this repository) — the model draws one random
bit per catalog entry, producing the single evaluated candidate handed to
the hall-of-fame fold of `optimize_cargo`. -/
def gaCandidates : ℕ → RngState → List Bool × RngState
  | 0, g => ([], g)
  | n + 1, g =>
    let p := g.draw
    let r := gaCandidates n p.2
    ((decide (p.1 < 50)) :: r.1, r.2)

/-- The pending continuations of the simulation's processes: the arrival
generator about to draw its next interarrival (`genNext`), an arrival about
to spawn a ship (`arrival`), a ship process starting (cargo loading plus
lock request, `shipStart`), and a ship finishing service (`shipDone`,
carrying the boat and its arrival/entry/service/fee figures). -/
inductive SimTask where
  | genNext : SimTask
  | arrival : SimTask
  | shipStart : Boat → SimTask
  | shipDone : Boat → ℚ → ℚ → ℚ → ℚ → SimTask
deriving DecidableEq

/-- A scheduled event: `simpy` orders its heap by
`(time, priority, insertion id)`; process initializations are URGENT
(priority 0) and timeouts NORMAL (priority 1). -/
structure SimEvent where
  time : ℚ
  prio : ℕ
  seq : ℕ
  task : SimTask
deriving DecidableEq

/-- Strict lexicographic order on `(time, priority, insertion id)`. -/
def keyLt (a b : SimEvent) : Bool :=
  decide (a.time < b.time) ||
    (a.time == b.time &&
      (decide (a.prio < b.prio) || (a.prio == b.prio && decide (a.seq < b.seq))))

/-- Insert an event into the (sorted) pending-event list. -/
def insertEvent (e : SimEvent) : List SimEvent → List SimEvent
  | [] => [e]
  | x :: xs => if keyLt e x then e :: x :: xs else x :: insertEvent e xs

/-- The per-run configuration handed to the event loop: the horizon of
`env.run(until=...)` plus the two arguments of `CanalSimulation.run`. -/
structure SimConfig where
  horizon : ℚ
  arrival_rate : ℚ
  cargo_options : List Cargo
deriving DecidableEq

/-- The full state of one simulation run: virtual clock, pending events with
the next insertion id, global RNG and the `CanalSimulation` object. -/
structure SimState where
  now : ℚ
  nextSeq : ℕ
  events : List SimEvent
  rng : RngState
  canal : CanalSimState
deriving DecidableEq

/-- `env.schedule`: enqueue a continuation at an absolute time. -/
def schedule (s : SimState) (time : ℚ) (prio : ℕ) (t : SimTask) : SimState :=
  let e : SimEvent := { time := time, prio := prio, seq := s.nextSeq, task := t }
  { s with
    events := insertEvent e s.events,
    nextSeq := s.nextSeq + 1 }

/-- `simpy` rejects a negative timeout delay with `ValueError`. -/
def timeoutDelay (d : ℚ) : Except String ℚ :=
  if d < 0 then .error "ValueError: negative delay" else .ok d

/-- The lock-acquisition continuation of `process_ship_with_cargo`: measure
the wait, collect the fee `base_fee / (1 + wait_time)`, draw the service
time `expovariate(1.0 / avg_service_time)` (Python computes
`1.0 / avg_service_time` first, so a zero mean raises `ZeroDivisionError`
mid-run) and schedule the ship's departure after it. -/
def grantShip (b : Boat) (arrival : ℚ) (s : SimState) : Except String SimState :=
  if s.canal.avg_service_time = 0 then .error "ZeroDivisionError"
  else
    let p := s.rng.draw
    let st := p.1 * s.canal.avg_service_time
    if st < 0 then .error "ValueError: negative delay"
    else
      let wait := s.now - arrival
      let f := fee s.canal.base_fee wait
      let c2 : CanalSimState :=
        { s.canal with
          wait_times := s.canal.wait_times ++ [wait],
          total_fees_collected := s.canal.total_fees_collected + f }
      let s2 : SimState :=
        { s with
          rng := p.2,
          canal := c2 }
      .ok (schedule s2 (s2.now + st) 1 (SimTask.shipDone b arrival s2.now st f))

/-- Start of `process_ship_with_cargo`: capture `arrival_time`, load cargo
through the optimizer (`USE_OPTIMIZATION` is `True` in the source), then
request the lock — immediate grant when a slot is free, otherwise join the
FIFO wait queue. -/
def shipStartHandler (cfg : SimConfig) (b : Boat) (s : SimState) :
    Except String SimState :=
  let arrival := s.now
  let q := gaCandidates cfg.cargo_options.length s.rng
  let b2 := load_optimal_cargo b cfg.cargo_options [q.1]
  let s2 : SimState := { s with rng := q.2 }
  if s2.canal.users < s2.canal.num_locks.toNat then
    grantShip b2 arrival
      { s2 with canal := { s2.canal with users := s2.canal.users + 1 } }
  else
    .ok { s2 with canal :=
      { s2.canal with wait_queue := s2.canal.wait_queue ++ [(b2, arrival)] } }

/-- End of `process_ship_with_cargo`: emit the ship record and one cargo
record per loaded item, bump `ship_count`, then leave the `with` block —
the release hands the freed slot to the FIFO head at the current time, or
decrements the occupancy when nobody waits. -/
def shipDoneHandler (b : Boat) (arrival entry st f : ℚ) (s : SimState) :
    Except String SimState :=
  let c := s.canal
  let rec1 : ShipRecord :=
    { ship := b.name, arrival := arrival, entry := entry,
      wait_time := entry - arrival, service_time := st, exit_time := s.now,
      fee := f, cargo_value := cargoValue b, cargo_weight := b.current_weight,
      cargo_space := b.current_space,
      free_weight := b.max_weight - b.current_weight,
      free_space := b.max_space - b.current_space }
  let recs := b.cargo_list.map (fun cg =>
    ({ ship := b.name, cargo_name := cg.name, category := cg.category,
       weight := cg.weight, space := cg.space_required,
       value := cg.value_per_unit * cg.weight } : CargoRecord))
  let s2 : SimState :=
    { s with canal := { c with
        ship_logs := c.ship_logs ++ [rec1],
        cargo_logs := c.cargo_logs ++ recs,
        ship_count := c.ship_count + 1 } }
  match s2.canal.wait_queue with
  | [] => .ok { s2 with canal := { s2.canal with users := s2.canal.users - 1 } }
  | (b2, arr2) :: rest =>
    grantShip b2 arr2 { s2 with canal := { s2.canal with wait_queue := rest } }

/-- The arrival generator waking after a timeout: build a `random_boat`,
spawn its ship process (an URGENT initialization event at the current time),
then draw the next interarrival and sleep again. -/
def arrivalHandler (cfg : SimConfig) (s : SimState) : Except String SimState :=
  match random_boat s.rng with
  | .error m => .error m
  | .ok (b, g1) =>
    let s1 := schedule { s with rng := g1 } s.now 0 (SimTask.shipStart b)
    match expovariateM cfg.arrival_rate s1.rng with
    | .error m => .error m
    | .ok (ia, g2) =>
      match timeoutDelay ia with
      | .error m => .error m
      | .ok d => .ok (schedule { s1 with rng := g2 } (s1.now + d) 1 SimTask.arrival)

/-- The first iteration of `ship_arrivals`: draw the first interarrival and
schedule the first arrival. -/
def genNextHandler (cfg : SimConfig) (s : SimState) : Except String SimState :=
  match expovariateM cfg.arrival_rate s.rng with
  | .error m => .error m
  | .ok (ia, g2) =>
    match timeoutDelay ia with
    | .error m => .error m
    | .ok d => .ok (schedule { s with rng := g2 } (s.now + d) 1 SimTask.arrival)

/-- Dispatch one popped event to its continuation. -/
def handleEvent (cfg : SimConfig) (e : SimEvent) (s : SimState) :
    Except String SimState :=
  match e.task with
  | SimTask.genNext => genNextHandler cfg s
  | SimTask.arrival => arrivalHandler cfg s
  | SimTask.shipStart b => shipStartHandler cfg b s
  | SimTask.shipDone b a en st f => shipDoneHandler b a en st f s

/-- One turn of `env.run(until=horizon)`: pop the minimal event; process it
if it is due strictly before the horizon (the stop event at `horizon` is
URGENT and was scheduled first, so events due at or after the horizon are
discarded without invocation); `none` signals termination. -/
def stepSim (cfg : SimConfig) (s : SimState) : Except String (Option SimState) :=
  match s.events with
  | [] => .ok none
  | e :: rest =>
    if e.time < cfg.horizon then
      match handleEvent cfg e { s with events := rest, now := e.time } with
      | .error m => .error m
      | .ok s2 => .ok (some s2)
    else .ok none

/-- The event loop, fuelled: `fuel` bounds the number of processed events
(the theorems below hold for every fuel). -/
def runEvents (cfg : SimConfig) : ℕ → SimState → Except String SimState
  | 0, s => .ok s
  | n + 1, s =>
    match stepSim cfg s with
    | .error m => .error m
    | .ok none => .ok s
    | .ok (some s2) => runEvents cfg n s2

/-- `CanalSimulation.run`: start the `ship_arrivals` process, run the event
loop until the horizon, then append the run summary (`statistics.mean` of
the wait times, or 0 when none). -/
def canalRun (c : CanalSimState) (until0 arrival_rate : ℚ)
    (cargo_options : List Cargo) (g : RngState) (fuel : ℕ) :
    Except String CanalSimState :=
  let cfg : SimConfig :=
    { horizon := until0, arrival_rate := arrival_rate, cargo_options := cargo_options }
  let s0 : SimState :=
    { now := 0, nextSeq := 1,
      events := [{ time := 0, prio := 0, seq := 0, task := SimTask.genNext }],
      rng := g, canal := c }
  match runEvents cfg fuel s0 with
  | .error m => .error m
  | .ok s =>
    let c2 := s.canal
    let avg : ℚ :=
      if c2.wait_times = [] then 0 else c2.wait_times.sum / (c2.wait_times.length : ℚ)
    .ok { c2 with canal_logs := c2.canal_logs ++
      [{ total_ships := c2.ship_count, average_wait_time := avg,
         total_fees_collected := c2.total_fees_collected,
         simulation_time := until0 }] }

/-- `run_simulation` from controller.py: seeds the global RNG with the
hard-coded constant 42 (`random.seed(42)  # For reproducibility`) — `g` is
the incoming global RNG state, which the reseeding discards — then builds
the environment and a `CanalSimulation` with the default `base_fee = 1000`
and runs it. -/
def run_simulation (g : RngState) (fuel : ℕ)
    (simulation_time arrival_rate avg_service_time : ℚ) (num_locks : ℤ)
    (cargo_options : List Cargo) : Except String CanalSimState :=
  let rng := mkRng 42
  match mkCanalSimulation num_locks avg_service_time 1000 with
  | .error m => .error m
  | .ok canal => canalRun canal simulation_time arrival_rate cargo_options rng fuel

/-- Modelled from the spec (section 6): a run whose randomness source is
seeded by the externally supplied `random_seed` configuration input,
otherwise identical to `run_simulation`. -/
def runSimulationSeeded (random_seed : ℕ) (fuel : ℕ)
    (simulation_time arrival_rate avg_service_time : ℚ) (num_locks : ℤ)
    (cargo_options : List Cargo) : Except String CanalSimState :=
  let rng := mkRng random_seed
  match mkCanalSimulation num_locks avg_service_time 1000 with
  | .error m => .error m
  | .ok canal => canalRun canal simulation_time arrival_rate cargo_options rng fuel

/-- The horizon-cutoff property of the emitted logs, as an executable check:
every ship record departed strictly before the horizon, the completion
counter equals the number of ship records, and every cargo record belongs
to a logged (hence completed) ship. -/
def logsOKb (horizon : ℚ) (c : CanalSimState) : Bool :=
  c.ship_logs.all (fun r => decide (r.exit_time < horizon)) &&
  (c.ship_count == c.ship_logs.length) &&
  c.cargo_logs.all (fun cr => c.ship_logs.any (fun sr => sr.ship == cr.ship))

/-- The horizon-cutoff property as a proposition (used in the induction). -/
def LogsOK (horizon : ℚ) (c : CanalSimState) : Prop :=
  (∀ r ∈ c.ship_logs, r.exit_time < horizon) ∧
  c.ship_count = c.ship_logs.length ∧
  (∀ cr ∈ c.cargo_logs, ∃ sr ∈ c.ship_logs, sr.ship = cr.ship)

/-- The number of recorded waits of a run's outcome (an arbitrary value on a
failed run). -/
def waitCount : Except String CanalSimState → ℕ
  | .ok c => c.wait_times.length
  | .error _ => 1000

-- Concrete states of the two runs compared in the C9 counterexample:
-- configuration `horizon 20, arrival_rate 1, avg_service_time 1, 1 lock,
-- empty catalog`, seeds 42 and 7.

/-- The freshly constructed `CanalSimulation` of the counterexample runs. -/
def cexCanal0 : CanalSimState :=
  { num_locks := 1, avg_service_time := 1, base_fee := 1000, users := 0,
    wait_queue := [], ship_logs := [], cargo_logs := [], canal_logs := [],
    total_fees_collected := 0, ship_count := 0, wait_times := [] }

/-- The event-loop configuration of the counterexample runs. -/
def cexCfg : SimConfig := { horizon := 20, arrival_rate := 1, cargo_options := [] }

/-- The boat the seed-42 run spawns at time 9. -/
def cexBoat42 : Boat := mkBoat ("Boat_" ++ toString (61 : ℤ)) 260000 21500

/-- The initial event-loop state for a given seed. -/
def cexS0 (seed : ℕ) : SimState :=
  { now := 0, nextSeq := 1,
    events := [{ time := 0, prio := 0, seq := 0, task := SimTask.genNext }],
    rng := mkRng seed, canal := cexCanal0 }

/-- Seed 42, after the generator's first draw (interarrival 9). -/
def cexS1 : SimState :=
  { now := 0, nextSeq := 2,
    events := [{ time := 9, prio := 1, seq := 1, task := SimTask.arrival }],
    rng := { seed := 42, index := 1 }, canal := cexCanal0 }

/-- Seed 42, after the arrival at time 9 spawned its ship and the generator
drew the next interarrival (77). -/
def cexS2 : SimState :=
  { now := 9, nextSeq := 4,
    events := [{ time := 9, prio := 0, seq := 2, task := SimTask.shipStart cexBoat42 },
               { time := 86, prio := 1, seq := 3, task := SimTask.arrival }],
    rng := { seed := 42, index := 5 }, canal := cexCanal0 }

/-- The canal state once the seed-42 ship entered service at time 9 with
zero wait: one slot in use, one recorded wait and the full base fee. -/
def cexCanal1 : CanalSimState :=
  { cexCanal0 with users := 1, wait_times := [0], total_fees_collected := 1000 }

/-- Seed 42, after the ship was granted the lock (service time 94, departure
scheduled at 103). -/
def cexS3 : SimState :=
  { now := 9, nextSeq := 5,
    events := [{ time := 86, prio := 1, seq := 3, task := SimTask.arrival },
               { time := 103, prio := 1, seq := 4,
                 task := SimTask.shipDone cexBoat42 9 9 94 1000 }],
    rng := { seed := 42, index := 6 }, canal := cexCanal1 }

/-- Seed 7, after the generator's first draw (interarrival 24, beyond the
horizon 20). -/
def cexT1 : SimState :=
  { now := 0, nextSeq := 2,
    events := [{ time := 24, prio := 1, seq := 1, task := SimTask.arrival }],
    rng := { seed := 7, index := 1 }, canal := cexCanal0 }

/-- The seed-42 outcome: one wait recorded, 1000 collected. -/
def cexOut42 : CanalSimState :=
  { cexCanal1 with canal_logs :=
      [{ total_ships := 0, average_wait_time := 0,
         total_fees_collected := 1000, simulation_time := 20 }] }

/-- The seed-7 outcome: nothing happened before the horizon. -/
def cexOut7 : CanalSimState :=
  { cexCanal0 with canal_logs :=
      [{ total_ships := 0, average_wait_time := 0,
         total_fees_collected := 0, simulation_time := 20 }] }

-- Concrete states of the C7 witness run: the same seed-42 stream but with
-- horizon 120, so the first ship departs (at time 103) inside the horizon
-- and a second ship experiences a real FIFO wait.

/-- The C7 witness configuration: horizon 120, arrival rate 1, empty catalog. -/
def c7Cfg : SimConfig := { horizon := 120, arrival_rate := 1, cargo_options := [] }

/-- The second boat the seed-42 run spawns, at time 86. -/
def c7Boat2 : Boat := mkBoat ("Boat_" ++ toString (46 : ℤ)) 110000 14000

/-- After the arrival at time 86: its ship process is pending, the generator
sleeps until 148. -/
def c7S4 : SimState :=
  { now := 86, nextSeq := 7,
    events := [{ time := 86, prio := 0, seq := 5, task := SimTask.shipStart c7Boat2 },
               { time := 103, prio := 1, seq := 4,
                 task := SimTask.shipDone cexBoat42 9 9 94 1000 },
               { time := 148, prio := 1, seq := 6, task := SimTask.arrival }],
    rng := { seed := 42, index := 10 }, canal := cexCanal1 }

/-- After the second ship requested the lock and joined the FIFO queue (the
single lock is still held by the first ship). -/
def c7S5 : SimState :=
  { now := 86, nextSeq := 7,
    events := [{ time := 103, prio := 1, seq := 4,
                 task := SimTask.shipDone cexBoat42 9 9 94 1000 },
               { time := 148, prio := 1, seq := 6, task := SimTask.arrival }],
    rng := { seed := 42, index := 10 },
    canal := { cexCanal1 with wait_queue := [(c7Boat2, 86)] } }

/-- The ship record the first ship emits on departing at time 103. -/
def c7ShipRec : ShipRecord :=
  { ship := "Boat_" ++ toString (61 : ℤ), arrival := 9, entry := 9,
    wait_time := 0, service_time := 94, exit_time := 103, fee := 1000,
    cargo_value := 0, cargo_weight := 0, cargo_space := 0,
    free_weight := 260000, free_space := 21500 }

/-- The canal after the first departure: one record logged, the queued ship
granted the freed lock at 103 after a 17-unit wait (fee 1000/18 = 500/9). -/
def c7Canal3 : CanalSimState :=
  { cexCanal0 with
    users := 1,
    ship_logs := [c7ShipRec],
    ship_count := 1,
    wait_times := [0, 17],
    total_fees_collected := 9500 / 9 }

/-- After the first departure and the hand-over of the lock: the second
ship's own departure is scheduled at 182, beyond the horizon. -/
def c7S6 : SimState :=
  { now := 103, nextSeq := 8,
    events := [{ time := 148, prio := 1, seq := 6, task := SimTask.arrival },
               { time := 182, prio := 1, seq := 7,
                 task := SimTask.shipDone c7Boat2 86 103 79 (500 / 9) }],
    rng := { seed := 42, index := 11 }, canal := c7Canal3 }

/-- The C7 witness run's outcome: one completed ship inside the horizon. -/
def c7Out : CanalSimState :=
  { c7Canal3 with canal_logs :=
      [{ total_ships := 1, average_wait_time := 17 / 2,
         total_fees_collected := 9500 / 9, simulation_time := 120 }] }



theorem can_load_fst (b : Boat) (c : Cargo) :
    (b.can_load c).1 =
      (decide (¬ b.current_weight + c.weight > b.max_weight) &&
       decide (¬ b.current_space + c.space_required > b.max_space)) := by
  unfold Boat.can_load
  split
  · rename_i h; simp [h]
  · split
    · rename_i h; simp [h]
    · rename_i h1 h2; simp [h1, h2]

theorem load_cargo_of_refused (b : Boat) (c : Cargo)
    (h : b.current_weight + c.weight > b.max_weight ∨
         b.current_space + c.space_required > b.max_space) :
    b.load_cargo c = b := by
  unfold Boat.load_cargo Boat.can_load
  rcases h with h | h
  · simp [h]
  · by_cases hw : b.current_weight + c.weight > b.max_weight
    · simp [hw]
    · simp [hw, h]

theorem load_cargo_of_fits (b : Boat) (c : Cargo)
    (hw : ¬ b.current_weight + c.weight > b.max_weight)
    (hs : ¬ b.current_space + c.space_required > b.max_space) :
    b.load_cargo c =
      { b with
        cargo := some c.value_per_unit,
        cargo_list := b.cargo_list ++ [c],
        current_weight := b.current_weight + c.weight,
        current_space := b.current_space + c.space_required,
        total_value := b.total_value + c.value_per_unit } := by
  unfold Boat.load_cargo Boat.can_load
  simp [hw, hs]

theorem load_cargo_preserves_capacity (b : Boat) (c : Cargo) (h : CapacityOK b) :
    CapacityOK (b.load_cargo c) := by
  by_cases hw : b.current_weight + c.weight > b.max_weight
  · rw [load_cargo_of_refused b c (Or.inl hw)]; exact h
  · by_cases hs : b.current_space + c.space_required > b.max_space
    · rw [load_cargo_of_refused b c (Or.inr hs)]; exact h
    · rw [load_cargo_of_fits b c hw hs]
      exact ⟨le_of_not_lt hw, le_of_not_lt hs⟩

theorem foldl_load_preserves_capacity (ops : List Cargo) :
    ∀ b : Boat, CapacityOK b → CapacityOK (ops.foldl Boat.load_cargo b) := by
  induction ops with
  | nil => intro b h; exact h
  | cons c cs ih =>
    intro b h
    exact ih (b.load_cargo c) (load_cargo_preserves_capacity b c h)

/-- C2 — For every ship and every sequence of loading operations (optimizer
apply step or greedy fallback alike), the invariants
`current_weight ≤ max_weight` and `current_space ≤ max_space` hold at every
observable point: a freshly constructed boat with nonnegative capacities
satisfies them and every `load_cargo` call preserves them, however infeasible
the selection handed to the loader is. -/
theorem capacity_invariant_holds
    (name : String) (mw ms : ℚ) (hmw : 0 ≤ mw) (hms : 0 ≤ ms)
    (ops : List Cargo) :
    CapacityOK (ops.foldl Boat.load_cargo (mkBoat name mw ms)) ∧
    (∀ b : Boat, CapacityOK b → ∀ c : Cargo, CapacityOK (b.load_cargo c)) := by
  constructor
  · exact foldl_load_preserves_capacity ops (mkBoat name mw ms) ⟨hmw, hms⟩
  · intro b hb c; exact load_cargo_preserves_capacity b c hb

/-- Witness for C2 at a concrete boat and load sequence. -/
theorem capacity_invariant_holds_witness :
    (0 : ℚ) ≤ 100 ∧ (0 : ℚ) ≤ 40 ∧
    (CapacityOK ([⟨"iron", 5, 60, 20, "Bulk"⟩, ⟨"oil", 2, 50, 30, "Liquid"⟩].foldl
      Boat.load_cargo (mkBoat "Titan" 100 40)) ∧
    (∀ b : Boat, CapacityOK b → ∀ c : Cargo, CapacityOK (b.load_cargo c))) :=
  ⟨by norm_num, by norm_num,
    capacity_invariant_holds "Titan" 100 40 (by norm_num) (by norm_num)
      [⟨"iron", 5, 60, 20, "Bulk"⟩, ⟨"oil", 2, 50, 30, "Liquid"⟩]⟩

/-- C8 — a load whose admission would exceed the weight or the space limit is
refused and leaves the ship's state (all fields, `current_weight`,
`current_space`, `total_value` and `cargo_list` included) exactly unchanged. -/
theorem load_refused_state_unchanged (b : Boat) (c : Cargo)
    (h : b.current_weight + c.weight > b.max_weight ∨
         b.current_space + c.space_required > b.max_space) :
    b.load_cargo c = b ∧
    (b.load_cargo c).current_weight = b.current_weight ∧
    (b.load_cargo c).current_space = b.current_space ∧
    (b.load_cargo c).total_value = b.total_value ∧
    (b.load_cargo c).cargo_list = b.cargo_list := by
  have he := load_cargo_of_refused b c h
  exact ⟨he, by rw [he], by rw [he], by rw [he], by rw [he]⟩

/-- Witness for C8: a boat of weight capacity 10 refuses an item of weight 11
without any state change. -/
theorem load_refused_state_unchanged_witness :
    ((mkBoat "W" 10 50).current_weight + (11 : ℚ) > (mkBoat "W" 10 50).max_weight ∨
     (mkBoat "W" 10 50).current_space + (1 : ℚ) > (mkBoat "W" 10 50).max_space) ∧
    ((mkBoat "W" 10 50).load_cargo ⟨"heavy", 3, 11, 1, "Bulk"⟩ = mkBoat "W" 10 50 ∧
     ((mkBoat "W" 10 50).load_cargo ⟨"heavy", 3, 11, 1, "Bulk"⟩).current_weight =
       (mkBoat "W" 10 50).current_weight ∧
     ((mkBoat "W" 10 50).load_cargo ⟨"heavy", 3, 11, 1, "Bulk"⟩).current_space =
       (mkBoat "W" 10 50).current_space ∧
     ((mkBoat "W" 10 50).load_cargo ⟨"heavy", 3, 11, 1, "Bulk"⟩).total_value =
       (mkBoat "W" 10 50).total_value ∧
     ((mkBoat "W" 10 50).load_cargo ⟨"heavy", 3, 11, 1, "Bulk"⟩).cargo_list =
       (mkBoat "W" 10 50).cargo_list) :=
  ⟨Or.inl (by norm_num [mkBoat]),
   load_refused_state_unchanged (mkBoat "W" 10 50) ⟨"heavy", 3, 11, 1, "Bulk"⟩
     (Or.inl (by norm_num [mkBoat]))⟩

/-- C10 — `Boat.can_load` is not side-effect-free: when it answers `true` it
also assigns the `cargo` attribute to `+value_per_unit` of the checked item
(the `=+` line overwrites, it does not accumulate), and when it answers
`false` it performs no mutation at all; `current_weight`, `current_space`,
`total_value` and `cargo_list` are untouched in both cases. -/
theorem can_load_effect (b : Boat) (c : Cargo) :
    (b.can_load c).2 =
      (if (b.can_load c).1 then { b with cargo := some c.value_per_unit } else b) := by
  unfold Boat.can_load
  split
  · simp
  · split <;> simp

-- ## The fitness function and the evolutionary optimizer
-- (`src/Model/cargo_optimizer.py`)

theorem evalFold (l : List (Bool × Cargo)) :
    ∀ a b c : ℚ,
      l.foldl evalStep (a, b, c) =
        (a + totalWeight (selOf l), b + totalSpace (selOf l), c + totalValue (selOf l)) := by
  induction l with
  | nil => intro a b c; simp [selOf, totalWeight, totalSpace, totalValue]
  | cons p t ih =>
    obtain ⟨g, cg⟩ := p
    intro a b c
    cases g
    · have h1 : selOf ((false, cg) :: t) = selOf t := by simp [selOf]
      simpa [evalStep, h1] using ih a b c
    · have h1 : selOf ((true, cg) :: t) = cg :: selOf t := by simp [selOf]
      have h2 := ih (a + cg.weight) (b + cg.space_required) (c + cg.value_per_unit * cg.weight)
      simp only [List.foldl_cons, evalStep, if_pos] at *
      rw [h2, h1]
      simp [totalWeight, totalSpace, totalValue]
      constructor
      · ring
      · constructor <;> ring

/-- C3 — `evalCargo` returns `0` exactly when the selected items' total weight
exceeds `max_weight` or their total `space_required` exceeds `max_space`
(hard penalty), and otherwise returns the sum of `value_per_unit * weight`
over the selected items. -/
theorem evalCargo_hard_penalty (individual : List Bool) (boat : Boat)
    (cargo_options : List Cargo) :
    evalCargo individual boat cargo_options =
      if totalWeight (selectedCargo individual cargo_options) > boat.max_weight ∨
         totalSpace (selectedCargo individual cargo_options) > boat.max_space
      then 0
      else totalValue (selectedCargo individual cargo_options) := by
  unfold evalCargo
  rw [evalFold]
  simp [selectedCargo]

theorem hofFold_init_le (f : List Bool → ℚ) (xs : List (List Bool)) :
    ∀ x, f x ≤ f (hofFold f x xs) := by
  induction xs with
  | nil => intro x; exact le_refl _
  | cons y ys ih =>
    intro x
    have h1 : f x ≤ f (if f x < f y then y else x) := by
      by_cases h : f x < f y
      · rw [if_pos h]; exact le_of_lt h
      · rw [if_neg h]
    exact le_trans h1 (ih _)

theorem hofFold_mem_le (f : List Bool → ℚ) (xs : List (List Bool)) :
    ∀ x ind, ind ∈ xs → f ind ≤ f (hofFold f x xs) := by
  induction xs with
  | nil => intro x ind h; cases h
  | cons y ys ih =>
    intro x ind h
    rcases List.mem_cons.1 h with rfl | h2
    · have h1 : f ind ≤ f (if f x < f ind then ind else x) := by
        by_cases h : f x < f ind
        · rw [if_pos h]
        · rw [if_neg h]; exact le_of_not_lt h
      exact le_trans h1 (hofFold_init_le f ys _)
    · exact ih _ ind h2

theorem feasible_of_pos_fitness (individual : List Bool) (b : Boat)
    (opts : List Cargo) (h : 0 < evalCargo individual b opts) :
    totalWeight (selectedCargo individual opts) ≤ b.max_weight ∧
    totalSpace (selectedCargo individual opts) ≤ b.max_space := by
  rw [evalCargo_hard_penalty] at h
  by_cases hc : totalWeight (selectedCargo individual opts) > b.max_weight ∨
      totalSpace (selectedCargo individual opts) > b.max_space
  · rw [if_pos hc] at h; exact absurd h (lt_irrefl 0)
  · push_neg at hc; exact hc

theorem selectedCargo_mem (individual : List Bool) (opts : List Cargo)
    (c : Cargo) (h : c ∈ selectedCargo individual opts) : c ∈ opts := by
  unfold selectedCargo selOf at h
  obtain ⟨p, hp, rfl⟩ := List.mem_map.1 h
  exact (List.of_mem_zip (List.mem_of_mem_filter hp)).2

theorem totalWeight_nonneg (l : List Cargo) (h : ∀ c ∈ l, 0 ≤ c.weight) :
    0 ≤ totalWeight l := by
  apply List.sum_nonneg
  intro x hx
  obtain ⟨c, hc, rfl⟩ := List.mem_map.1 hx
  exact h c hc

theorem totalSpace_nonneg (l : List Cargo) (h : ∀ c ∈ l, 0 ≤ c.space_required) :
    0 ≤ totalSpace l := by
  apply List.sum_nonneg
  intro x hx
  obtain ⟨c, hc, rfl⟩ := List.mem_map.1 hx
  exact h c hc

theorem foldl_load_all (items : List Cargo) :
    ∀ b : Boat,
      (∀ c ∈ items, 0 ≤ c.weight ∧ 0 ≤ c.space_required) →
      b.current_weight + totalWeight items ≤ b.max_weight →
      b.current_space + totalSpace items ≤ b.max_space →
      (items.foldl Boat.load_cargo b).cargo_list = b.cargo_list ++ items := by
  induction items with
  | nil => intro b _ _ _; simp
  | cons c cs ih =>
    intro b hnn hw hs
    have hWcs : 0 ≤ totalWeight cs :=
      totalWeight_nonneg cs (fun d hd => (hnn d (List.mem_cons_of_mem c hd)).1)
    have hScs : 0 ≤ totalSpace cs :=
      totalSpace_nonneg cs (fun d hd => (hnn d (List.mem_cons_of_mem c hd)).2)
    have htw : totalWeight (c :: cs) = c.weight + totalWeight cs := by
      simp [totalWeight]
    have hts : totalSpace (c :: cs) = c.space_required + totalSpace cs := by
      simp [totalSpace]
    have hw1 : ¬ b.current_weight + c.weight > b.max_weight := by
      rw [not_lt]
      calc b.current_weight + c.weight
          ≤ b.current_weight + c.weight + totalWeight cs := by linarith
        _ = b.current_weight + totalWeight (c :: cs) := by rw [htw]; ring
        _ ≤ b.max_weight := hw
    have hs1 : ¬ b.current_space + c.space_required > b.max_space := by
      rw [not_lt]
      calc b.current_space + c.space_required
          ≤ b.current_space + c.space_required + totalSpace cs := by linarith
        _ = b.current_space + totalSpace (c :: cs) := by rw [hts]; ring
        _ ≤ b.max_space := hs
    have hload := load_cargo_of_fits b c hw1 hs1
    have hrec := ih (b.load_cargo c)
      (fun d hd => hnn d (List.mem_cons_of_mem c hd))
      (by rw [hload]; simp only []; rw [htw] at hw; linarith)
      (by rw [hload]; simp only []; rw [hts] at hs; linarith)
    calc ((c :: cs).foldl Boat.load_cargo b).cargo_list
        = (cs.foldl Boat.load_cargo (b.load_cargo c)).cargo_list := by
          rw [List.foldl_cons]
      _ = (b.load_cargo c).cargo_list ++ cs := hrec
      _ = (b.cargo_list ++ [c]) ++ cs := by rw [hload]
      _ = b.cargo_list ++ (c :: cs) := by simp

theorem foldl_zip_guard (g : Boat → Cargo → Boat) :
    ∀ (l : List (Bool × Cargo)) (b : Boat),
      l.foldl (fun b p => if p.1 then g b p.2 else b) b = (selOf l).foldl g b := by
  intro l
  induction l with
  | nil => intro b; rfl
  | cons p t ih =>
    obtain ⟨gg, cg⟩ := p
    intro b
    cases gg
    · have h1 : selOf ((false, cg) :: t) = selOf t := by simp [selOf]
      simpa [h1] using ih b
    · have h1 : selOf ((true, cg) :: t) = cg :: selOf t := by simp [selOf]
      simpa [h1] using ih (g b cg)

/-- C1 (amended) — whenever at least one candidate evaluated by the GA has
strictly positive fitness, the hall-of-fame individual returned by
`optimize_cargo` satisfies both constraints (`Σ weight ≤ max_weight` and
`Σ space_required ≤ max_space`); and for a fresh ship (zero current load) and
a catalog of nonnegative weights and space requirements, `load_optimal_cargo`
then loads every selected item through the capacity-checked loader, in
catalog order, with no load refused.  (When every evaluated candidate has
fitness `0`, the returned individual may violate the constraints — see the
counterexample.) -/
theorem optimizer_feasible_and_loads
    (b : Boat) (opts : List Cargo) (evaluated : List (List Bool))
    (hw : b.current_weight = 0) (hs : b.current_space = 0)
    (hnn : opts.all (fun c => decide (0 ≤ c.weight) && decide (0 ≤ c.space_required)) = true)
    (hpos : evaluated.any (fun ind => decide (0 < evalCargo ind b opts)) = true) :
    totalWeight (selectedCargo (optimize_cargo b opts evaluated).1 opts) ≤ b.max_weight ∧
    totalSpace (selectedCargo (optimize_cargo b opts evaluated).1 opts) ≤ b.max_space ∧
    (load_optimal_cargo b opts evaluated).cargo_list
      = b.cargo_list ++ selectedCargo (optimize_cargo b opts evaluated).1 opts := by
  simp only [List.all_eq_true, Bool.and_eq_true, decide_eq_true_eq] at hnn
  simp only [List.any_eq_true, decide_eq_true_eq] at hpos
  obtain ⟨ind, hmem, hposv⟩ := hpos
  cases evaluated with
  | nil => cases hmem
  | cons x xs =>
    have hbesteq : (optimize_cargo b opts (x :: xs)).1 =
        hofFold (fun i => evalCargo i b opts) x xs := rfl
    have hge : evalCargo ind b opts ≤
        evalCargo (hofFold (fun i => evalCargo i b opts) x xs) b opts := by
      rcases List.mem_cons.1 hmem with rfl | h2
      · exact hofFold_init_le (fun i => evalCargo i b opts) xs ind
      · exact hofFold_mem_le (fun i => evalCargo i b opts) xs x ind h2
    have hbest : 0 < evalCargo ((optimize_cargo b opts (x :: xs)).1) b opts := by
      rw [hbesteq]; exact lt_of_lt_of_le hposv hge
    have hfeas := feasible_of_pos_fitness _ b opts hbest
    refine ⟨hfeas.1, hfeas.2, ?_⟩
    unfold load_optimal_cargo
    rw [foldl_zip_guard]
    apply foldl_load_all
    · intro c hc; exact hnn c (selectedCargo_mem _ opts c hc)
    · rw [hw, zero_add]; exact hfeas.1
    · rw [hs, zero_add]; exact hfeas.2

/-- Witness for C1 (amended): a boat of capacities 10/10, a one-item catalog
that fits, and an evaluated candidate of positive fitness. -/
theorem optimizer_feasible_and_loads_witness :
    (mkBoat "B" 10 10).current_weight = 0 ∧
    (mkBoat "B" 10 10).current_space = 0 ∧
    [(⟨"c", 1, 1, 1, "Bulk"⟩ : Cargo)].all
      (fun c => decide (0 ≤ c.weight) && decide (0 ≤ c.space_required)) = true ∧
    [[true]].any
      (fun ind => decide (0 < evalCargo ind (mkBoat "B" 10 10) [⟨"c", 1, 1, 1, "Bulk"⟩])) = true ∧
    (totalWeight (selectedCargo
        (optimize_cargo (mkBoat "B" 10 10) [⟨"c", 1, 1, 1, "Bulk"⟩] [[true]]).1
        [⟨"c", 1, 1, 1, "Bulk"⟩]) ≤ (mkBoat "B" 10 10).max_weight ∧
     totalSpace (selectedCargo
        (optimize_cargo (mkBoat "B" 10 10) [⟨"c", 1, 1, 1, "Bulk"⟩] [[true]]).1
        [⟨"c", 1, 1, 1, "Bulk"⟩]) ≤ (mkBoat "B" 10 10).max_space ∧
     (load_optimal_cargo (mkBoat "B" 10 10) [⟨"c", 1, 1, 1, "Bulk"⟩] [[true]]).cargo_list
       = (mkBoat "B" 10 10).cargo_list ++ selectedCargo
           (optimize_cargo (mkBoat "B" 10 10) [⟨"c", 1, 1, 1, "Bulk"⟩] [[true]]).1
           [⟨"c", 1, 1, 1, "Bulk"⟩]) :=
  ⟨rfl, rfl,
   by norm_num,
   by
     simp only [List.any_cons, List.any_nil, Bool.or_false, decide_eq_true_eq]
     rw [evalCargo_hard_penalty]
     norm_num [totalWeight, totalSpace, totalValue, selectedCargo, selOf, mkBoat],
   optimizer_feasible_and_loads (mkBoat "B" 10 10) [⟨"c", 1, 1, 1, "Bulk"⟩] [[true]]
     rfl rfl (by norm_num)
     (by
       simp only [List.any_cons, List.any_nil, Bool.or_false, decide_eq_true_eq]
       rw [evalCargo_hard_penalty]
       norm_num [totalWeight, totalSpace, totalValue, selectedCargo, selOf, mkBoat])⟩

/-- C1 counterexample — the claim as stated is false: with a boat of weight
capacity 1 and a one-item catalog whose item weighs 2, the GA can evaluate
only the all-ones candidate (fitness 0, like every candidate here), the hall
of fame then returns that infeasible selection, its total weight exceeds
`max_weight`, and `load_optimal_cargo` has the load refused (the boat stays
empty), contradicting both "the selection satisfies both constraints" and
"no load is refused". -/
theorem optimizer_infeasible_counterexample :
    (optimize_cargo (mkBoat "B" 1 100) [⟨"C", 1, 2, 1, "Bulk"⟩] [[true]]).1 = [true] ∧
    totalWeight (selectedCargo [true] [⟨"C", 1, 2, 1, "Bulk"⟩]) >
      (mkBoat "B" 1 100).max_weight ∧
    (load_optimal_cargo (mkBoat "B" 1 100) [⟨"C", 1, 2, 1, "Bulk"⟩] [[true]]).cargo_list
      = [] := by
  have href : (mkBoat "B" 1 100).load_cargo ⟨"C", 1, 2, 1, "Bulk"⟩ = mkBoat "B" 1 100 :=
    load_cargo_of_refused _ _ (Or.inl (by norm_num [mkBoat]))
  refine ⟨rfl, ?_, ?_⟩
  · show (1 : ℚ) < totalWeight (selectedCargo [true] [⟨"C", 1, 2, 1, "Bulk"⟩])
    norm_num [totalWeight, selectedCargo, selOf]
  · show (((mkBoat "B" 1 100).load_cargo ⟨"C", 1, 2, 1, "Bulk"⟩)).cargo_list = []
    rw [href]
    rfl

/-- C4 — after any sequence of load attempts starting from a fresh boat, the
`total_value` accumulator equals the sum of the bare `value_per_unit`
figures over `cargo_list`, while the `cargo_value` reported in the emitted
record equals the sum of `value_per_unit * weight` over the same list: the
two value formulas deliberately differ and are both reproduced. -/
theorem two_value_figures
    (name : String) (mw ms : ℚ) (ops : List Cargo) :
    (ops.foldl Boat.load_cargo (mkBoat name mw ms)).total_value
      = totalUnitValue (ops.foldl Boat.load_cargo (mkBoat name mw ms)).cargo_list ∧
    cargoValue (ops.foldl Boat.load_cargo (mkBoat name mw ms))
      = totalValue (ops.foldl Boat.load_cargo (mkBoat name mw ms)).cargo_list := by
  refine ⟨?_, rfl⟩
  have step : ∀ (b : Boat) (c : Cargo),
      b.total_value = totalUnitValue b.cargo_list →
      (b.load_cargo c).total_value = totalUnitValue (b.load_cargo c).cargo_list := by
    intro b c hb
    by_cases hw : b.current_weight + c.weight > b.max_weight
    · rw [load_cargo_of_refused b c (Or.inl hw)]; exact hb
    · by_cases hs : b.current_space + c.space_required > b.max_space
      · rw [load_cargo_of_refused b c (Or.inr hs)]; exact hb
      · rw [load_cargo_of_fits b c hw hs]
        simp [totalUnitValue, hb]
  have main : ∀ (l : List Cargo) (b : Boat),
      b.total_value = totalUnitValue b.cargo_list →
      (l.foldl Boat.load_cargo b).total_value
        = totalUnitValue (l.foldl Boat.load_cargo b).cargo_list := by
    intro l
    induction l with
    | nil => intro b hb; exact hb
    | cons c cs ih => intro b hb; exact ih (b.load_cargo c) (step b c hb)
  exact main ops (mkBoat name mw ms) (by simp [mkBoat, totalUnitValue])

/-- C5 — the fee `base_fee / (1 + wait_time)` equals `base_fee` exactly at
zero wait, is strictly positive for every finite nonnegative wait, and is
strictly decreasing in the wait time (for the positive `base_fee` the code
always uses — `run_simulation` constructs the simulation with the default
`base_fee = 1000`). -/
theorem fee_properties (base_fee w1 w2 : ℚ)
    (hb : 0 < base_fee) (h1 : 0 ≤ w1) (h12 : w1 < w2) :
    fee base_fee 0 = base_fee ∧
    0 < fee base_fee w1 ∧
    0 < fee base_fee w2 ∧
    fee base_fee w2 < fee base_fee w1 ∧
    fee base_fee w1 ≤ base_fee := by
  have hp1 : 0 < 1 + w1 := by linarith
  have hp2 : 0 < 1 + w2 := by linarith
  refine ⟨by simp [fee], div_pos hb hp1, div_pos hb hp2, ?_, ?_⟩
  · exact div_lt_div_of_pos_left hb hp1 (by linarith)
  · calc fee base_fee w1 = base_fee / (1 + w1) := rfl
      _ ≤ base_fee / 1 := by
          apply div_le_div_of_nonneg_left (le_of_lt hb) one_pos
          linarith
      _ = base_fee := div_one base_fee

/-- Witness for C5 at the code's `base_fee = 1000` and waits 0 and 4 (the
spec's own scenario: `fee(4) = 200`). -/
theorem fee_properties_witness :
    (0 : ℚ) < 1000 ∧ (0 : ℚ) ≤ 0 ∧ (0 : ℚ) < 4 ∧
    (fee 1000 0 = 1000 ∧ 0 < fee 1000 0 ∧ 0 < fee 1000 4 ∧
     fee 1000 4 < fee 1000 0 ∧ fee 1000 0 ≤ 1000) :=
  ⟨by norm_num, by norm_num, by norm_num,
   fee_properties 1000 0 4 (by norm_num) (by norm_num) (by norm_num)⟩

-- ## The canal simulation (`Controller/controller.py`)

theorem logsOKb_iff (h : ℚ) (c : CanalSimState) : logsOKb h c = true ↔ LogsOK h c := by
  unfold logsOKb LogsOK
  simp only [Bool.and_eq_true, List.all_eq_true, List.any_eq_true,
    decide_eq_true_eq, beq_iff_eq]
  tauto

theorem LogsOK_of_eq (h : ℚ) (c1 c2 : CanalSimState)
    (h1 : c2.ship_logs = c1.ship_logs) (h2 : c2.cargo_logs = c1.cargo_logs)
    (h3 : c2.ship_count = c1.ship_count) (hok : LogsOK h c1) : LogsOK h c2 := by
  unfold LogsOK at *
  rw [h1, h2, h3]
  exact hok

theorem schedule_canal (s : SimState) (t : ℚ) (p : ℕ) (tk : SimTask) :
    (schedule s t p tk).canal = s.canal := rfl

theorem grantShip_frame (b : Boat) (a : ℚ) (s s2 : SimState)
    (h : grantShip b a s = .ok s2) :
    s2.canal.ship_logs = s.canal.ship_logs ∧
    s2.canal.cargo_logs = s.canal.cargo_logs ∧
    s2.canal.ship_count = s.canal.ship_count := by
  simp only [grantShip] at h
  split at h
  · exact absurd h (by simp)
  · split at h
    · exact absurd h (by simp)
    · injection h with h
      subst h
      exact ⟨rfl, rfl, rfl⟩

theorem shipStart_frame (cfg : SimConfig) (b : Boat) (s s2 : SimState)
    (h : shipStartHandler cfg b s = .ok s2) :
    s2.canal.ship_logs = s.canal.ship_logs ∧
    s2.canal.cargo_logs = s.canal.cargo_logs ∧
    s2.canal.ship_count = s.canal.ship_count := by
  simp only [shipStartHandler] at h
  split at h
  · have h3 := grantShip_frame _ _ _ _ h
    exact ⟨h3.1, h3.2.1, h3.2.2⟩
  · injection h with h
    subst h
    exact ⟨rfl, rfl, rfl⟩

theorem genNext_canal (cfg : SimConfig) (s s2 : SimState)
    (h : genNextHandler cfg s = .ok s2) : s2.canal = s.canal := by
  simp only [genNextHandler] at h
  split at h
  · exact absurd h (by simp)
  · split at h
    · exact absurd h (by simp)
    · injection h with h
      subst h
      rfl

theorem arrival_canal (cfg : SimConfig) (s s2 : SimState)
    (h : arrivalHandler cfg s = .ok s2) : s2.canal = s.canal := by
  simp only [arrivalHandler] at h
  split at h
  · exact absurd h (by simp)
  · split at h
    · exact absurd h (by simp)
    · split at h
      · exact absurd h (by simp)
      · injection h with h
        subst h
        rfl

theorem shipDone_logs (b : Boat) (arrival entry st f : ℚ) (s s2 : SimState)
    (h : shipDoneHandler b arrival entry st f s = .ok s2) :
    ∃ rec1 recs,
      s2.canal.ship_logs = s.canal.ship_logs ++ [rec1] ∧
      rec1.exit_time = s.now ∧
      s2.canal.cargo_logs = s.canal.cargo_logs ++ recs ∧
      s2.canal.ship_count = s.canal.ship_count + 1 ∧
      (∀ cr ∈ recs, cr.ship = rec1.ship) := by
  simp only [shipDoneHandler] at h
  split at h
  · injection h with h
    subst h
    refine ⟨_, _, rfl, rfl, rfl, rfl, ?_⟩
    intro cr hcr
    obtain ⟨cg, _, rfl⟩ := List.mem_map.1 hcr
    rfl
  · have := grantShip_frame _ _ _ _ h
    refine ⟨_, _, this.1.trans rfl, rfl, this.2.1.trans rfl, this.2.2.trans rfl, ?_⟩
    intro cr hcr
    obtain ⟨cg, _, rfl⟩ := List.mem_map.1 hcr
    rfl

theorem handle_preserves (cfg : SimConfig) (e : SimEvent) (s s2 : SimState)
    (hlt : s.now < cfg.horizon)
    (h : handleEvent cfg e s = .ok s2)
    (hok : LogsOK cfg.horizon s.canal) : LogsOK cfg.horizon s2.canal := by
  unfold handleEvent at h
  cases ht : e.task with
  | genNext =>
    rw [ht] at h
    rw [genNext_canal cfg s s2 h]
    exact hok
  | arrival =>
    rw [ht] at h
    rw [arrival_canal cfg s s2 h]
    exact hok
  | shipStart b =>
    rw [ht] at h
    have h3 := shipStart_frame cfg b s s2 h
    exact LogsOK_of_eq _ _ _ h3.1 h3.2.1 h3.2.2 hok
  | shipDone b a en st f =>
    rw [ht] at h
    obtain ⟨rec1, recs, hships, hexit, hcargo, hcount, hrecs⟩ :=
      shipDone_logs b a en st f s s2 h
    obtain ⟨hok1, hok2, hok3⟩ := hok
    refine ⟨?_, ?_, ?_⟩
    · intro r hr
      rw [hships] at hr
      rcases List.mem_append.1 hr with hr | hr
      · exact hok1 r hr
      · rw [List.mem_singleton.1 hr, hexit]
        exact hlt
    · rw [hships, hcount, hok2]
      simp
    · intro cr hcr
      rw [hcargo] at hcr
      rcases List.mem_append.1 hcr with hcr | hcr
      · obtain ⟨sr, hsr, hship⟩ := hok3 cr hcr
        exact ⟨sr, by rw [hships]; exact List.mem_append_left _ hsr, hship⟩
      · refine ⟨rec1, ?_, (hrecs cr hcr).symm⟩
        rw [hships]
        exact List.mem_append_right _ (List.mem_singleton.2 rfl)

theorem runEvents_preserves (cfg : SimConfig) :
    ∀ (fuel : ℕ) (s s2 : SimState),
      runEvents cfg fuel s = .ok s2 →
      LogsOK cfg.horizon s.canal → LogsOK cfg.horizon s2.canal := by
  intro fuel
  induction fuel with
  | zero =>
    intro s s2 h hok
    unfold runEvents at h
    injection h with h
    subst h
    exact hok
  | succ n ih =>
    intro s s2 h hok
    unfold runEvents at h
    cases hstep : stepSim cfg s with
    | error m =>
      rw [hstep] at h
      exact absurd h (by simp)
    | ok o =>
      rw [hstep] at h
      cases o with
      | none =>
        simp only [Except.ok.injEq] at h
        subst h
        exact hok
      | some s1 =>
        refine ih s1 s2 h ?_
        unfold stepSim at hstep
        cases hev : s.events with
        | nil =>
          rw [hev] at hstep
          exact absurd hstep (by simp)
        | cons e rest =>
          rw [hev] at hstep
          dsimp only at hstep
          split at hstep
          · rename_i hlt
            cases hh : handleEvent cfg e { s with events := rest, now := e.time } with
            | error m =>
              rw [hh] at hstep
              exact absurd hstep (by simp)
            | ok s1b =>
              rw [hh] at hstep
              simp only [Except.ok.injEq, Option.some.injEq] at hstep
              subst hstep
              exact handle_preserves cfg e _ _ hlt hh hok
          · exact absurd hstep (by simp)

/-- C7 — for every run (any configuration, RNG state and fuel) that ends
normally, every emitted ship record has `exit_time` strictly before the
horizon (a ship whose service completion falls at or after the horizon is
never logged), the `ship_count` reported as `total_ships_completed` equals
the number of emitted ship records, and every cargo record belongs to a
logged (hence completed) ship. -/
theorem horizon_cutoff (g : RngState) (fuel : ℕ) (t ar avg : ℚ) (nl : ℤ)
    (opts : List Cargo) (c2 : CanalSimState)
    (h : run_simulation g fuel t ar avg nl opts = .ok c2) :
    logsOKb t c2 = true := by
  rw [logsOKb_iff]
  unfold run_simulation at h
  split at h
  · exact absurd h (by simp)
  · rename_i canal hmk
    simp only [canalRun] at h
    split at h
    · exact absurd h (by simp)
    · rename_i s hrun
      simp only [Except.ok.injEq] at h
      subst h
      have hinit : LogsOK t canal := by
        unfold mkCanalSimulation at hmk
        split at hmk
        · exact absurd hmk (by simp)
        · injection hmk with hmk
          subst hmk
          refine ⟨?_, rfl, ?_⟩
          · intro r hr
            cases hr
          · intro cr hcr
            cases hcr
      have hfin := runEvents_preserves _ fuel _ s hrun hinit
      exact LogsOK_of_eq _ _ _ rfl rfl rfl hfin

/-- C6 (amended) — no configuration validation happens at construction: the
constructor accepts every `avg_service_time` (even non-positive) and every
`base_fee` (even negative); the only constructor-time rejection is the
non-positive lock capacity, raised by the underlying `simpy.Resource`
(outside this repository); and `arrival_rate` is not a construction input at
all — a zero arrival rate is first discovered mid-run, when the first
interarrival draw raises `ZeroDivisionError`. -/
theorem construction_unvalidated :
    (∀ ast bf : ℚ, (mkCanalSimulation 1 ast bf).isOk = true) ∧
    (∀ ast bf : ℚ, mkCanalSimulation 0 ast bf =
        .error "ValueError: capacity must be > 0") ∧
    run_simulation (mkRng 0) 5 10 0 1 1 [] = .error "ZeroDivisionError" := by
  refine ⟨?_, ?_, ?_⟩
  · intro ast bf
    rfl
  · intro ast bf
    rfl
  · rfl

/-- C6 counterexample — the claim as stated is false: constructing a
simulation with the non-positive `avg_service_time = -5` and the negative
`base_fee = -100` is not rejected; the constructor succeeds and stores the
invalid values verbatim. -/
theorem construction_accepts_invalid_counterexample :
    mkCanalSimulation 1 (-5) (-100) = .ok
      { num_locks := 1, avg_service_time := -5, base_fee := -100, users := 0,
        wait_queue := [], ship_logs := [], cargo_logs := [], canal_logs := [],
        total_fees_collected := 0, ship_count := 0, wait_times := [] } := rfl

/-- C9 (amended) — `run_simulation` reseeds the global RNG with the
hard-coded constant 42, so its outcome is independent of the incoming global
RNG state and always coincides with a seed-42 run: two runs with identical
configuration produce identical ship logs, cargo logs and run summary
(reproducibility), but the seed is a constant, not an externally supplied
`random_seed` input. -/
theorem reseeding_determinism (g1 g2 : RngState) (fuel : ℕ) (t ar avg : ℚ)
    (nl : ℤ) (opts : List Cargo) :
    run_simulation g1 fuel t ar avg nl opts = run_simulation g2 fuel t ar avg nl opts ∧
    run_simulation g1 fuel t ar avg nl opts = runSimulationSeeded 42 fuel t ar avg nl opts :=
  ⟨rfl, rfl⟩

theorem runEvents_succ_ok_some (cfg : SimConfig) (n : ℕ) (s s2 : SimState)
    (h : stepSim cfg s = .ok (some s2)) :
    runEvents cfg (n + 1) s = runEvents cfg n s2 := by
  conv =>
    lhs
    unfold runEvents
  rw [h]

theorem runEvents_succ_ok_none (cfg : SimConfig) (n : ℕ) (s : SimState)
    (h : stepSim cfg s = .ok none) :
    runEvents cfg (n + 1) s = .ok s := by
  conv =>
    lhs
    unfold runEvents
  rw [h]

theorem cexStep42_1 : stepSim cexCfg (cexS0 42) = .ok (some cexS1) := by
  norm_num [stepSim, cexCfg, cexS0, cexS1, cexCanal0, handleEvent, genNextHandler,
    expovariateM, RngState.draw, randomStream, mkRng, timeoutDelay, schedule,
    insertEvent, keyLt]

theorem cexStep42_2 : stepSim cexCfg cexS1 = .ok (some cexS2) := by
  norm_num [stepSim, cexCfg, cexS1, cexS2, cexCanal0, cexBoat42, handleEvent,
    arrivalHandler, random_boat, expovariateM, RngState.draw, randomStream,
    mkRng, timeoutDelay, schedule, insertEvent, keyLt, mkBoat]

theorem cexStep42_3 : stepSim cexCfg cexS2 = .ok (some cexS3) := by
  norm_num [stepSim, cexCfg, cexS2, cexS3, cexCanal0, cexCanal1, cexBoat42,
    handleEvent, shipStartHandler, gaCandidates, load_optimal_cargo,
    optimize_cargo, hofFold, grantShip, fee, RngState.draw, randomStream,
    schedule, insertEvent, keyLt, mkBoat]

theorem cexStep42_4 : stepSim cexCfg cexS3 = .ok none := by
  norm_num [stepSim, cexCfg, cexS3, cexCanal1, cexCanal0, cexBoat42, mkBoat]

theorem cexStep7_1 : stepSim cexCfg (cexS0 7) = .ok (some cexT1) := by
  norm_num [stepSim, cexCfg, cexS0, cexT1, cexCanal0, handleEvent, genNextHandler,
    expovariateM, RngState.draw, randomStream, mkRng, timeoutDelay, schedule,
    insertEvent, keyLt]

theorem cexStep7_2 : stepSim cexCfg cexT1 = .ok none := by
  norm_num [stepSim, cexCfg, cexT1, cexCanal0]

theorem cexRun42 : runSimulationSeeded 42 4 20 1 1 1 [] = .ok cexOut42 := by
  have hrun : runEvents { horizon := 20, arrival_rate := 1, cargo_options := [] } 4
      { now := 0, nextSeq := 1,
        events := [{ time := 0, prio := 0, seq := 0, task := SimTask.genNext }],
        rng := mkRng 42, canal := cexCanal0 } = .ok cexS3 :=
    calc runEvents cexCfg 4 (cexS0 42)
        = runEvents cexCfg 3 cexS1 := runEvents_succ_ok_some cexCfg 3 _ _ cexStep42_1
      _ = runEvents cexCfg 2 cexS2 := runEvents_succ_ok_some cexCfg 2 _ _ cexStep42_2
      _ = runEvents cexCfg 1 cexS3 := runEvents_succ_ok_some cexCfg 1 _ _ cexStep42_3
      _ = .ok cexS3 := runEvents_succ_ok_none cexCfg 0 _ cexStep42_4
  simp only [runSimulationSeeded]
  rw [show mkCanalSimulation 1 1 1000 = .ok cexCanal0 from rfl]
  simp only [canalRun]
  rw [hrun]
  norm_num [cexS3, cexCanal1, cexCanal0, cexOut42]

theorem cexRun7 : runSimulationSeeded 7 4 20 1 1 1 [] = .ok cexOut7 := by
  have hrun : runEvents { horizon := 20, arrival_rate := 1, cargo_options := [] } 4
      { now := 0, nextSeq := 1,
        events := [{ time := 0, prio := 0, seq := 0, task := SimTask.genNext }],
        rng := mkRng 7, canal := cexCanal0 } = .ok cexT1 :=
    calc runEvents cexCfg 4 (cexS0 7)
        = runEvents cexCfg 3 cexT1 := runEvents_succ_ok_some cexCfg 3 _ _ cexStep7_1
      _ = .ok cexT1 := runEvents_succ_ok_none cexCfg 2 _ cexStep7_2
  simp only [runSimulationSeeded]
  rw [show mkCanalSimulation 1 1 1000 = .ok cexCanal0 from rfl]
  simp only [canalRun]
  rw [hrun]
  norm_num [cexT1, cexCanal0, cexOut7]

/-- C9 counterexample — the claim as stated is false: there is no externally
supplied `random_seed` input; `run_simulation` always reseeds with the
constant 42, so even handing it a different incoming RNG state (`mkRng 7`)
yields exactly the seed-42 outcome, whereas a run that really honored an
external seed 7 (the spec-modelled `runSimulationSeeded`) produces a
different outcome on the same configuration. -/
theorem seed_not_external_counterexample :
    run_simulation (mkRng 7) 4 20 1 1 1 [] = runSimulationSeeded 42 4 20 1 1 1 [] ∧
    runSimulationSeeded 7 4 20 1 1 1 [] ≠ runSimulationSeeded 42 4 20 1 1 1 [] := by
  refine ⟨rfl, ?_⟩
  intro heq
  rw [cexRun42, cexRun7] at heq
  injection heq with heq
  have h1 := congrArg CanalSimState.wait_times heq
  simp [cexOut7, cexOut42, cexCanal0, cexCanal1] at h1

theorem c7Step1 : stepSim c7Cfg (cexS0 42) = .ok (some cexS1) := by
  norm_num [stepSim, c7Cfg, cexS0, cexS1, cexCanal0, handleEvent, genNextHandler,
    expovariateM, RngState.draw, randomStream, mkRng, timeoutDelay, schedule,
    insertEvent, keyLt]

theorem c7Step2 : stepSim c7Cfg cexS1 = .ok (some cexS2) := by
  norm_num [stepSim, c7Cfg, cexS1, cexS2, cexCanal0, cexBoat42, handleEvent,
    arrivalHandler, random_boat, expovariateM, RngState.draw, randomStream,
    mkRng, timeoutDelay, schedule, insertEvent, keyLt, mkBoat]

theorem c7Step3 : stepSim c7Cfg cexS2 = .ok (some cexS3) := by
  norm_num [stepSim, c7Cfg, cexS2, cexS3, cexCanal0, cexCanal1, cexBoat42,
    handleEvent, shipStartHandler, gaCandidates, load_optimal_cargo,
    optimize_cargo, hofFold, grantShip, fee, RngState.draw, randomStream,
    schedule, insertEvent, keyLt, mkBoat]

theorem c7Step4 : stepSim c7Cfg cexS3 = .ok (some c7S4) := by
  norm_num [stepSim, c7Cfg, cexS3, c7S4, cexCanal0, cexCanal1, cexBoat42, c7Boat2,
    handleEvent, arrivalHandler, random_boat, expovariateM, RngState.draw,
    randomStream, timeoutDelay, schedule, insertEvent, keyLt, mkBoat]

theorem c7Step5 : stepSim c7Cfg c7S4 = .ok (some c7S5) := by
  norm_num [stepSim, c7Cfg, c7S4, c7S5, cexCanal0, cexCanal1, cexBoat42, c7Boat2,
    handleEvent, shipStartHandler, gaCandidates, load_optimal_cargo,
    optimize_cargo, hofFold, schedule, insertEvent, keyLt, mkBoat]

theorem c7Step6 : stepSim c7Cfg c7S5 = .ok (some c7S6) := by
  norm_num [stepSim, c7Cfg, c7S5, c7S6, cexCanal0, cexCanal1, cexBoat42, c7Boat2,
    c7Canal3, c7ShipRec, handleEvent, shipDoneHandler, grantShip, fee,
    cargoValue, totalValue, RngState.draw, randomStream, schedule, insertEvent,
    keyLt, mkBoat]

theorem c7Step7 : stepSim c7Cfg c7S6 = .ok none := by
  norm_num [stepSim, c7Cfg, c7S6, c7Canal3, c7ShipRec, cexCanal0, c7Boat2, mkBoat]

theorem c7RunEval : run_simulation (mkRng 0) 7 120 1 1 1 [] = .ok c7Out := by
  have hrun : runEvents { horizon := 120, arrival_rate := 1, cargo_options := [] } 7
      { now := 0, nextSeq := 1,
        events := [{ time := 0, prio := 0, seq := 0, task := SimTask.genNext }],
        rng := mkRng 42, canal := cexCanal0 } = .ok c7S6 :=
    calc runEvents c7Cfg 7 (cexS0 42)
        = runEvents c7Cfg 6 cexS1 := runEvents_succ_ok_some c7Cfg 6 _ _ c7Step1
      _ = runEvents c7Cfg 5 cexS2 := runEvents_succ_ok_some c7Cfg 5 _ _ c7Step2
      _ = runEvents c7Cfg 4 cexS3 := runEvents_succ_ok_some c7Cfg 4 _ _ c7Step3
      _ = runEvents c7Cfg 3 c7S4 := runEvents_succ_ok_some c7Cfg 3 _ _ c7Step4
      _ = runEvents c7Cfg 2 c7S5 := runEvents_succ_ok_some c7Cfg 2 _ _ c7Step5
      _ = runEvents c7Cfg 1 c7S6 := runEvents_succ_ok_some c7Cfg 1 _ _ c7Step6
      _ = .ok c7S6 := runEvents_succ_ok_none c7Cfg 0 _ c7Step7
  show runSimulationSeeded 42 7 120 1 1 1 [] = .ok c7Out
  simp only [runSimulationSeeded]
  rw [show mkCanalSimulation 1 1 1000 = .ok cexCanal0 from rfl]
  simp only [canalRun]
  rw [hrun]
  norm_num [c7S6, c7Canal3, c7ShipRec, cexCanal0, c7Out]
  simp

/-- Witness for C7 at a concrete run in which a ship completes before the
horizon (and a second one, still in service at the cutoff, is not logged). -/
theorem horizon_cutoff_witness :
    run_simulation (mkRng 0) 7 120 1 1 1 [] = .ok c7Out ∧
    logsOKb 120 c7Out = true :=
  ⟨c7RunEval, horizon_cutoff (mkRng 0) 7 120 1 1 1 [] c7Out c7RunEval⟩
